import Mathlib

/-!
Verification of the mmtk-core generational coordinator and Immix block
bookkeeping, as a shallow embedding of the Rust sources
`src/policy/immix/block.rs`, `src/policy/immix/mod.rs` and
`src/plan/generational/global.rs`.

Machine bytes (`u8`) are modelled as `Nat` with an explicit `% 256` wherever
the Rust code performs a byte-sized store or an `as u8` cast.
-/

/-- The block allocation state (`BlockState` in `block.rs`).  The Rust payload
of `Reusable` is a `u8`; here it is a `Nat` and every construction site that
casts in Rust applies `% 256` explicitly. -/
inductive BlockState where
  | Unallocated : BlockState
  | Unmarked : BlockState
  | Marked : BlockState
  | Reusable (unavailable_lines : Nat) : BlockState
deriving Repr, DecidableEq

/-- Private constant `BlockState::MARK_UNALLOCATED = 0`. -/
def BlockState.MARK_UNALLOCATED : Nat := 0

/-- Private constant `BlockState::MARK_UNMARKED = u8::MAX = 255`. -/
def BlockState.MARK_UNMARKED : Nat := 255

/-- Private constant `BlockState::MARK_MARKED = u8::MAX - 1 = 254`. -/
def BlockState.MARK_MARKED : Nat := 254

/-- `impl From<u8> for BlockState`: decode a metadata byte into a block
state.  The Rust `match` tests the three reserved constants in order and
treats every other byte as a `Reusable` unavailable-line count. -/
def BlockState.ofU8 (state : Nat) : BlockState :=
  if state = BlockState.MARK_UNALLOCATED then BlockState.Unallocated
  else if state = BlockState.MARK_UNMARKED then BlockState.Unmarked
  else if state = BlockState.MARK_MARKED then BlockState.Marked
  else BlockState.Reusable state

/-- `impl From<BlockState> for u8`: encode a block state as a metadata byte. -/
def BlockState.toU8 : BlockState → Nat
  | BlockState.Unallocated => BlockState.MARK_UNALLOCATED
  | BlockState.Unmarked => BlockState.MARK_UNMARKED
  | BlockState.Marked => BlockState.MARK_MARKED
  | BlockState.Reusable unavailable_lines => unavailable_lines

/-- `BlockState::is_reusable`. -/
def BlockState.is_reusable : BlockState → Bool
  | BlockState.Reusable _ => true
  | _ => false

/-- A legal `BlockState` value: the `Reusable` payload is a byte that is not
one of the three reserved encodings (`0`, `254`, `255`), i.e. `1 ..= 253`. -/
def BlockState.legal : BlockState → Prop
  | BlockState.Reusable k => 1 ≤ k ∧ k ≤ 253
  | _ => True

instance (s : BlockState) : Decidable s.legal := by
  cases s <;> simp [BlockState.legal] <;> infer_instance

/-- The two per-block side-metadata bytes of `block.rs`: the mark table byte
(block state codec) and the defrag-state byte (defrag-source sentinel or hole
count).  Atomic loads return the stored value `as u8`, hence `% 256` at every
load. -/
structure BlockMeta where
  mark_byte : Nat
  defrag_byte : Nat
deriving Repr, DecidableEq

/-- `Block::get_state`: load the mark-table byte and decode it. -/
def BlockMeta.get_state (m : BlockMeta) : BlockState :=
  BlockState.ofU8 (m.mark_byte % 256)

/-- `Block::set_state`: encode the state and store it as a byte. -/
def BlockMeta.set_state (m : BlockMeta) (state : BlockState) : BlockMeta :=
  { m with mark_byte := state.toU8 % 256 }

/-- Constant `Block::DEFRAG_SOURCE_STATE = u8::MAX = 255`. -/
def Block.DEFRAG_SOURCE_STATE : Nat := 255

/-- `Block::is_defrag_source`: the defrag byte equals the sentinel. -/
def BlockMeta.is_defrag_source (m : BlockMeta) : Bool :=
  m.defrag_byte % 256 == Block.DEFRAG_SOURCE_STATE

/-- `Block::set_as_defrag_source`: store the sentinel byte or zero. -/
def BlockMeta.set_as_defrag_source (m : BlockMeta) (defrag : Bool) : BlockMeta :=
  { m with defrag_byte := if defrag then Block.DEFRAG_SOURCE_STATE else 0 }

/-- `Block::set_holes`: store the hole count into the shared defrag byte
(the metadata table is byte-sized, so the stored `usize` is truncated). -/
def BlockMeta.set_holes (m : BlockMeta) (holes : Nat) : BlockMeta :=
  { m with defrag_byte := holes % 256 }

/-- `Block::get_holes`: load the shared defrag byte as a hole count. -/
def BlockMeta.get_holes (m : BlockMeta) : Nat :=
  m.defrag_byte % 256

/-- `Block::init`: a clean block starts `Marked` when copy-allocated and
`Unmarked` otherwise, and the defrag byte is zeroed. -/
def BlockMeta.init (m : BlockMeta) (copy : Bool) : BlockMeta :=
  let m1 := m.set_state (if copy then BlockState.Marked else BlockState.Unmarked)
  { m1 with defrag_byte := 0 }

/-- `Block::deinit`: the state returns to `Unallocated` before the pages are
released. -/
def BlockMeta.deinit (m : BlockMeta) : BlockMeta :=
  m.set_state BlockState.Unallocated

/-- Claim C5: the `BlockState`/`u8` codec round-trips on every legal state,
and the boundary bytes decode to `Unallocated` (0), `Marked` (254),
`Unmarked` (255), `Reusable 1` (1) and `Reusable 253` (253). -/
theorem blockstate_codec_roundtrip (s : BlockState) (h : s.legal) :
    BlockState.ofU8 s.toU8 = s ∧
    BlockState.ofU8 0 = BlockState.Unallocated ∧
    BlockState.ofU8 254 = BlockState.Marked ∧
    BlockState.ofU8 255 = BlockState.Unmarked ∧
    BlockState.ofU8 1 = BlockState.Reusable 1 ∧
    BlockState.ofU8 253 = BlockState.Reusable 253 := by
  refine ⟨?_, by decide, by decide, by decide, by decide, by decide⟩
  cases s with
  | Reusable k =>
      obtain ⟨h1, h2⟩ := h
      simp only [BlockState.toU8, BlockState.ofU8, BlockState.MARK_UNALLOCATED,
        BlockState.MARK_UNMARKED, BlockState.MARK_MARKED]
      have hk0 : k ≠ 0 := by omega
      have hk255 : k ≠ 255 := by omega
      have hk254 : k ≠ 254 := by omega
      simp [hk0, hk255, hk254]
  | Unallocated => decide
  | Unmarked => decide
  | Marked => decide

/-- Witness for C5 at the legal state `Reusable 7`. -/
theorem blockstate_codec_roundtrip_witness :
    BlockState.ofU8 (BlockState.Reusable 7).toU8 = BlockState.Reusable 7 :=
  (blockstate_codec_roundtrip (BlockState.Reusable 7) (by decide)).1

/-- Claim C9: the shared defrag/holes byte round-trips through its accessors:
for `n ≤ 254`, `set_holes n` then `get_holes` yields `n` (and the block is
then not a defrag source, so the read is legal); `set_as_defrag_source b`
then `is_defrag_source` yields `b` for both values of `b`. -/
theorem defrag_holes_byte_roundtrip (m : BlockMeta) (n : Nat) (h : n ≤ 254) :
    (m.set_holes n).get_holes = n ∧
    (m.set_holes n).is_defrag_source = false ∧
    (m.set_as_defrag_source true).is_defrag_source = true ∧
    (m.set_as_defrag_source false).is_defrag_source = false := by
  have hmod : n % 256 = n := Nat.mod_eq_of_lt (by omega)
  refine ⟨?_, ?_, ?_, ?_⟩
  · simp [BlockMeta.set_holes, BlockMeta.get_holes, hmod]
  · simp only [BlockMeta.set_holes, BlockMeta.is_defrag_source,
      Block.DEFRAG_SOURCE_STATE, hmod, beq_eq_false_iff_ne, ne_eq]
    omega
  · simp [BlockMeta.set_as_defrag_source, BlockMeta.is_defrag_source,
      Block.DEFRAG_SOURCE_STATE]
  · simp [BlockMeta.set_as_defrag_source, BlockMeta.is_defrag_source,
      Block.DEFRAG_SOURCE_STATE]

/-- Witness for C9 at `n = 42` on a block whose two bytes are zero. -/
theorem defrag_holes_byte_roundtrip_witness :
    ((BlockMeta.mk 0 0).set_holes 42).get_holes = 42 :=
  (defrag_holes_byte_roundtrip (BlockMeta.mk 0 0) 42 (by decide)).1

/-- Claim C10: clearing the defrag flag destroys a previously recorded hole
count (the byte is shared), and `init` zeroes the byte, so right after
`init` the block is not a defrag source and its hole count reads 0. -/
theorem defrag_clear_destroys_holes (m : BlockMeta) (n : Nat) (copy : Bool) :
    ((m.set_holes n).set_as_defrag_source false).get_holes = 0 ∧
    (m.set_as_defrag_source false).get_holes = 0 ∧
    (m.init copy).is_defrag_source = false ∧
    (m.init copy).get_holes = 0 := by
  refine ⟨?_, ?_, ?_, ?_⟩ <;>
    simp [BlockMeta.set_holes, BlockMeta.set_as_defrag_source, BlockMeta.get_holes,
      BlockMeta.is_defrag_source, BlockMeta.init, BlockMeta.set_state,
      Block.DEFRAG_SOURCE_STATE]

/-- Compile-time Immix flag from `immix/mod.rs`: mark/sweep at block level
only (no line mark tables) in this build. -/
def BLOCK_ONLY : Bool := true

/-- Compile-time Immix flag from `immix/mod.rs`: opportunistic copying. -/
def DEFRAG : Bool := false

/-- `Block::LOG_BYTES = 15` (32 KiB blocks). -/
def Block.LOG_BYTES : Nat := 15

/-- Modelled from the spec: `Line::LOG_BYTES`.  `line.rs` is not part of the
sources given; the spec fixes a line at 256 bytes (128 lines per 32 KiB
block), so its log is 8. -/
def Line.LOG_BYTES : Nat := 8

/-- `Block::LOG_LINES = Block::LOG_BYTES - Line::LOG_BYTES`. -/
def Block.LOG_LINES : Nat := Block.LOG_BYTES - Line.LOG_BYTES

/-- `Block::LINES = 1 << Block::LOG_LINES` (128 lines per block). -/
def Block.LINES : Nat := 2 ^ Block.LOG_LINES

/-- Modelled from the spec: `Line::is_marked(state)`.  `line.rs` is not part
of the sources given; per the spec, a line is marked exactly when its stored
mark byte equals the current mark epoch value. -/
def Line.is_marked (line_byte state : Nat) : Bool :=
  line_byte == state

/-- The observable effects of one `Block::sweep` call: the returned Bool
(`swept`), whether `space.release_block` ran, any state written through
`Block::set_state`, whether the block was pushed onto
`space.reusable_blocks`, any hole count recorded through `Block::set_holes`,
and the histogram update `mark_histogram[fst] += snd`. -/
structure SweepEffects where
  swept : Bool
  released : Bool
  state_written : Option BlockState
  pushed_reusable : Bool
  holes_recorded : Option Nat
  hist_update : Option (Nat × Nat)
deriving Repr, DecidableEq

/-- The line-walking loop of `Block::sweep` (line mode): accumulate
`marked_lines` and `holes` over the block's line mark bytes, with
`prev_line_is_marked` initially true. -/
def sweepLoop (state : Nat) : List Nat → Nat → Nat → Bool → Nat × Nat
  | [], marked_lines, holes, _ => (marked_lines, holes)
  | l :: rest, marked_lines, holes, prev_line_is_marked =>
    if Line.is_marked l state then
      sweepLoop state rest (marked_lines + 1) holes true
    else
      sweepLoop state rest marked_lines
        (if prev_line_is_marked then holes + 1 else holes) false

/-- The `(marked_lines, holes)` pair computed by the line walk of
`Block::sweep`, starting from zero counters and `prev_line_is_marked =
true`. -/
def lineCounts (state : Nat) (lines : List Nat) : Nat × Nat :=
  sweepLoop state lines 0 0 true

/-- `Block::sweep`, parameterised by the compile-time `BLOCK_ONLY` mode.
Inputs: the block's current state byte decoded (`get_state`), the
`line_mark_state` argument (an `Option`, unwrapped in line mode) and the
block's line mark bytes.  Returns `none` where the Rust panics
(`unreachable!()` on a `Reusable` state in block-only mode, `unwrap` of a
missing line mark state in line mode). -/
def Block.sweep (block_only : Bool) (st : BlockState) (line_mark_state : Option Nat)
    (lines : List Nat) : Option SweepEffects :=
  if block_only then
    match st with
    | BlockState.Unallocated => some ⟨false, false, none, false, none, none⟩
    | BlockState.Unmarked => some ⟨true, true, none, false, none, none⟩
    | BlockState.Marked => some ⟨false, false, none, false, none, none⟩
    | BlockState.Reusable _ => none
  else
    match line_mark_state with
    | none => none
    | some state =>
      if (lineCounts state lines).1 = 0 then
        some ⟨true, true, none, false, none, none⟩
      else if (lineCounts state lines).1 ≠ Block.LINES then
        some ⟨false, false,
          some (BlockState.Reusable ((lineCounts state lines).1 % 256)), true,
          some (lineCounts state lines).2,
          some ((lineCounts state lines).2, (lineCounts state lines).1)⟩
      else
        some ⟨false, false, some BlockState.Unmarked, false,
          some (lineCounts state lines).2,
          some ((lineCounts state lines).2, (lineCounts state lines).1)⟩

/-- Specification-level hole count, following the spec's words: the number of
maximal runs of unmarked lines that are preceded by a marked line or start at
the beginning of the block.  Each such run is identified by its first line,
i.e. an unmarked line whose predecessor (taking the virtual predecessor of
the first line to be marked) is marked. -/
def holesRunsSpec (marks : List Bool) : Nat :=
  ((true :: marks).zip marks).countP (fun p => p.1 && !p.2)

/-- Generalised bridge: the `holes` counter of the sweep loop equals the
accumulator plus the number of unmarked-run starts, where the run containing
the first line counts exactly when `prev_line_is_marked` enters as true. -/
theorem sweepLoop_holes (state : Nat) (lines : List Nat) :
    ∀ (ml h : Nat) (prev : Bool),
      (sweepLoop state lines ml h prev).2 =
        h + ((prev :: lines.map (fun l => Line.is_marked l state)).zip
              (lines.map (fun l => Line.is_marked l state))).countP
              (fun p => p.1 && !p.2) := by
  induction lines with
  | nil => intro ml h prev; simp [sweepLoop]
  | cons l rest ih =>
      intro ml h prev
      simp only [List.map_cons, List.zip_cons_cons, List.countP_cons, sweepLoop]
      by_cases hm : Line.is_marked l state = true
      · simp only [hm, if_true]
        rw [ih]
        simp
      · simp only [Bool.not_eq_true] at hm
        simp only [hm, Bool.false_eq_true, if_false]
        rw [ih]
        cases prev
        · simp
        · simp
          omega

/-- Generalised bridge for the `marked_lines` counter: it equals the
accumulator plus the number of marked lines, independent of the other two
loop variables. -/
theorem sweepLoop_marked (state : Nat) (lines : List Nat) :
    ∀ (ml h : Nat) (prev : Bool),
      (sweepLoop state lines ml h prev).1 =
        ml + lines.countP (fun l => Line.is_marked l state) := by
  induction lines with
  | nil => intro ml h prev; simp [sweepLoop]
  | cons l rest ih =>
      intro ml h prev
      simp only [List.countP_cons, sweepLoop]
      by_cases hm : Line.is_marked l state = true
      · simp only [hm, if_true]
        rw [ih]
        omega
      · simp only [Bool.not_eq_true] at hm
        simp only [hm, Bool.false_eq_true, if_false]
        rw [ih]
        omega

/-- Claim C4: for every mark epoch and every pattern of line mark bytes, the
hole count computed by the line walk of `Block::sweep` equals the number of
maximal runs of unmarked lines preceded by a marked line or the block start,
and whenever the sweep records a hole count via `set_holes` it records
exactly that number. -/
theorem sweep_holes_eq_runs (state : Nat) (lines : List Nat) :
    (lineCounts state lines).2 =
      holesRunsSpec (lines.map (fun l => Line.is_marked l state)) ∧
    ((Block.sweep false (BlockState.Unmarked) (some state) lines).bind
        SweepEffects.holes_recorded = none ∨
      (Block.sweep false (BlockState.Unmarked) (some state) lines).bind
        SweepEffects.holes_recorded =
        some (holesRunsSpec (lines.map (fun l => Line.is_marked l state)))) := by
  have hh : (lineCounts state lines).2 =
      holesRunsSpec (lines.map (fun l => Line.is_marked l state)) := by
    unfold lineCounts holesRunsSpec
    rw [sweepLoop_holes]
    omega
  refine ⟨hh, ?_⟩
  unfold Block.sweep
  by_cases h0 : (lineCounts state lines).1 = 0
  · simp [h0, Option.bind]
  · by_cases hfull : (lineCounts state lines).1 ≠ Block.LINES
    · right
      simp [h0, hfull, Option.bind, hh]
    · right
      simp [h0, hfull, Option.bind, hh]

/-- `Block::LINES` evaluates to 128 lines per block. -/
theorem Block.LINES_eq : Block.LINES = 128 := rfl

/-- Claim C3: the three branches of a line-mode sweep.  With `marked_lines`
and `holes` the counters of the line walk: no marked line releases the block
and reports it swept; `0 < marked_lines < 128` writes
`Reusable (marked_lines)`, pushes the block onto the reusable list, records
the holes and bumps `histogram[holes]` by `marked_lines`, reporting not
swept; all 128 lines marked writes `Unmarked` with the same hole recording
and histogram update, no push, not swept. -/
theorem sweep_line_mode_branches (state : Nat) (lines : List Nat) (st : BlockState) :
    ((lineCounts state lines).1 = 0 →
      Block.sweep false st (some state) lines =
        some ⟨true, true, none, false, none, none⟩) ∧
    (0 < (lineCounts state lines).1 → (lineCounts state lines).1 < Block.LINES →
      Block.sweep false st (some state) lines =
        some ⟨false, false, some (BlockState.Reusable (lineCounts state lines).1),
          true, some (lineCounts state lines).2,
          some ((lineCounts state lines).2, (lineCounts state lines).1)⟩) ∧
    ((lineCounts state lines).1 = Block.LINES →
      Block.sweep false st (some state) lines =
        some ⟨false, false, some BlockState.Unmarked, false,
          some (lineCounts state lines).2,
          some ((lineCounts state lines).2, (lineCounts state lines).1)⟩) := by
  refine ⟨?_, ?_, ?_⟩
  · intro h0
    simp [Block.sweep, h0]
  · intro hpos hlt
    have h0 : (lineCounts state lines).1 ≠ 0 := by omega
    have hne : (lineCounts state lines).1 ≠ Block.LINES := by omega
    have hmod : (lineCounts state lines).1 % 256 = (lineCounts state lines).1 := by
      rw [Block.LINES_eq] at hlt
      exact Nat.mod_eq_of_lt (by omega)
    simp [Block.sweep, h0, hne, hmod]
  · intro hfull
    have h0 : (lineCounts state lines).1 ≠ 0 := by
      rw [Block.LINES_eq] at hfull
      omega
    simp [Block.sweep, h0, hfull, Block.LINES_eq]

/-- Witness for C3: the spec's example walk `MMUUMMMUUUMM` with mark epoch 1
gives `marked_lines = 7`, `holes = 2`, state `Reusable 7`, a push onto the
reusable list, `histogram[2] += 7`, hole count 2 recorded, not swept. -/
theorem sweep_line_mode_branches_witness :
    Block.sweep false BlockState.Unmarked (some 1) [1, 1, 0, 0, 1, 1, 1, 0, 0, 0, 1, 1] =
      some ⟨false, false, some (BlockState.Reusable 7), true, some 2, some (2, 7)⟩ :=
  (sweep_line_mode_branches 1 [1, 1, 0, 0, 1, 1, 1, 0, 0, 0, 1, 1]
    BlockState.Unmarked).2.1 (by decide) (by decide)

/-- Claim C6: block-only sweep by current state: `Unallocated` is skipped
(not swept, nothing released, no state written), `Unmarked` is released and
reported swept, `Marked` is kept (not swept), and a `Reusable` state hits
`unreachable!()` (modelled as `none`), because `Reusable` is only produced by
the line-mode sweep. -/
theorem sweep_block_only_cases (lms : Option Nat) (lines : List Nat) :
    Block.sweep BLOCK_ONLY BlockState.Unallocated lms lines =
      some ⟨false, false, none, false, none, none⟩ ∧
    Block.sweep BLOCK_ONLY BlockState.Unmarked lms lines =
      some ⟨true, true, none, false, none, none⟩ ∧
    Block.sweep BLOCK_ONLY BlockState.Marked lms lines =
      some ⟨false, false, none, false, none, none⟩ ∧
    ∀ k, Block.sweep BLOCK_ONLY (BlockState.Reusable k) lms lines = none := by
  refine ⟨rfl, rfl, rfl, fun k => rfl⟩

/-- Helper: a block-only sweep never writes a block state directly. -/
theorem sweep_block_only_writes_none (st : BlockState) (lms : Option Nat)
    (lines : List Nat) (eff : SweepEffects)
    (h : Block.sweep true st lms lines = some eff) : eff.state_written = none := by
  cases st with
  | Unallocated => cases Option.some.inj h; rfl
  | Unmarked => cases Option.some.inj h; rfl
  | Marked => cases Option.some.inj h; rfl
  | Reusable k => exact Option.noConfusion h

/-- Helper: the `marked_lines` counter of the line walk is bounded by the
number of lines walked. -/
theorem lineCounts_fst_le_length (state : Nat) (lines : List Nat) :
    (lineCounts state lines).1 ≤ lines.length := by
  unfold lineCounts
  rw [sweepLoop_marked]
  simpa using List.countP_le_length _

/-- Helper: everything a line-mode sweep writes through `set_state` is
`Unmarked` or `Reusable marked_lines` with `marked_lines` not 0 and not
`Block::LINES`. -/
theorem sweep_line_writes (M : Nat) (st : BlockState) (lines : List Nat)
    (eff : SweepEffects) (h : Block.sweep false st (some M) lines = some eff) :
    eff.state_written = none ∨ eff.state_written = some BlockState.Unmarked ∨
    (eff.state_written = some (BlockState.Reusable ((lineCounts M lines).1 % 256)) ∧
      (lineCounts M lines).1 ≠ 0 ∧ (lineCounts M lines).1 ≠ Block.LINES) := by
  by_cases h0 : (lineCounts M lines).1 = 0
  · left
    simp [Block.sweep, h0] at h
    subst h
    rfl
  · by_cases hne : (lineCounts M lines).1 ≠ Block.LINES
    · right; right
      simp [Block.sweep, h0, hne] at h
      subst h
      exact ⟨rfl, h0, hne⟩
    · right; left
      simp [Block.sweep, h0, hne] at h
      subst h
      rfl

/-- Helper: `init` writes `Marked` for copy allocation, `Unmarked`
otherwise. -/
theorem BlockMeta.init_get_state (m : BlockMeta) (copy : Bool) :
    (m.init copy).get_state =
      if copy then BlockState.Marked else BlockState.Unmarked := by
  cases copy <;>
    simp [BlockMeta.init, BlockMeta.set_state, BlockMeta.get_state,
      BlockState.toU8, BlockState.ofU8, BlockState.MARK_UNALLOCATED,
      BlockState.MARK_UNMARKED, BlockState.MARK_MARKED]

/-- Helper: `deinit` writes `Unallocated`. -/
theorem BlockMeta.deinit_get_state (m : BlockMeta) :
    m.deinit.get_state = BlockState.Unallocated := by
  simp [BlockMeta.deinit, BlockMeta.set_state, BlockMeta.get_state,
    BlockState.toU8, BlockState.ofU8, BlockState.MARK_UNALLOCATED]

/-- The range of block states claimed legal across GC cycle boundaries:
`Unallocated`, `Unmarked`, `Marked`, or `Reusable k` with `1 ≤ k ≤ 127`. -/
def BlockState.inLegalRange : BlockState → Prop
  | BlockState.Reusable k => 1 ≤ k ∧ k ≤ 127
  | _ => True

instance (s : BlockState) : Decidable s.inLegalRange := by
  cases s <;> simp [BlockState.inLegalRange] <;> infer_instance

/-- Claim C8: the lifecycle operations only write states in the legal range:
`init` writes `Marked` (copy) or `Unmarked` (otherwise), `deinit` writes
`Unallocated`, and a sweep of a full 128-line block only ever writes
`Unmarked` or `Reusable k` with `1 ≤ k ≤ 127`. -/
theorem lifecycle_states_in_range (m : BlockMeta) (copy : Bool)
    (block_only : Bool) (st : BlockState) (lms : Option Nat) (lines : List Nat)
    (eff : SweepEffects) (s2 : BlockState)
    (hlen : lines.length = Block.LINES)
    (hsw : Block.sweep block_only st lms lines = some eff)
    (hwr : eff.state_written = some s2) :
    (m.init true).get_state = BlockState.Marked ∧
    (m.init false).get_state = BlockState.Unmarked ∧
    m.deinit.get_state = BlockState.Unallocated ∧
    s2.inLegalRange ∧
    BlockState.inLegalRange ((m.init copy).get_state) ∧
    BlockState.inLegalRange (m.deinit.get_state) := by
  refine ⟨by simp [BlockMeta.init_get_state], by simp [BlockMeta.init_get_state],
    BlockMeta.deinit_get_state m, ?_, ?_, ?_⟩
  · cases block_only with
    | true =>
        rw [sweep_block_only_writes_none st lms lines eff hsw] at hwr
        exact Option.noConfusion hwr
    | false =>
        cases lms with
        | none => exact Option.noConfusion hsw
        | some M =>
            rcases sweep_line_writes M st lines eff hsw with h | h | hr
            · rw [h] at hwr
              exact Option.noConfusion hwr
            · rw [h] at hwr
              cases Option.some.inj hwr
              trivial
            · obtain ⟨h, h0, hne⟩ := hr
              rw [h] at hwr
              cases Option.some.inj hwr
              have hle : (lineCounts M lines).1 ≤ 128 := by
                have hb := lineCounts_fst_le_length M lines
                rw [hlen, Block.LINES_eq] at hb
                exact hb
              rw [Block.LINES_eq] at hne
              have hmod : (lineCounts M lines).1 % 256 = (lineCounts M lines).1 :=
                Nat.mod_eq_of_lt (by omega)
              simp only [BlockState.inLegalRange, hmod]
              omega
  · cases copy <;> simp [BlockMeta.init_get_state, BlockState.inLegalRange]
  · simp [BlockMeta.deinit_get_state, BlockState.inLegalRange]

set_option maxRecDepth 8000 in
/-- Witness for C8: a 128-line block with 7 marked lines (the example pattern
followed by 116 unmarked lines) gets `Reusable 7` written, which is in the
legal range. -/
theorem lifecycle_states_in_range_witness :
    BlockState.inLegalRange (BlockState.Reusable 7) :=
  (lifecycle_states_in_range (BlockMeta.mk 0 0) true false BlockState.Unmarked
    (some 1) ([1, 1, 0, 0, 1, 1, 1, 0, 0, 0, 1, 1] ++ List.replicate 116 0)
    ⟨false, false, some (BlockState.Reusable 7), true, some 3, some (3, 7)⟩
    (BlockState.Reusable 7) (by decide) (by decide) rfl).2.2.2.1

/-- Modelled from the spec: `BYTES_IN_PAGE` (`util/constants.rs` is not in
the sources given).  The spec fixes a 32 KiB block at 8 pages, so a page is
4096 bytes. -/
def BYTES_IN_PAGE : Nat := 4096

/-- Modelled from the spec: `conversions::bytes_to_pages_up`
(`util/conversions.rs` is not in the sources given) rounds a byte count up
to whole pages, `ceil(bytes / page_size)`. -/
def bytes_to_pages_up (bytes : Nat) : Nat :=
  (bytes + BYTES_IN_PAGE - 1) / BYTES_IN_PAGE

/-- The two atomic flags owned by `Gen` in `generational/global.rs`. -/
structure GenState where
  gc_full_heap : Bool
  next_gc_full_heap : Bool
deriving Repr, DecidableEq

/-- The values `Gen::collection_required` and
`Gen::request_full_heap_collection` read from the nursery space and the
common plan base (those live outside `generational/global.rs`): the
nursery's reserved pages, the `max_nursery` option in bytes, the
user-triggered-collection flag, the `full_heap_system_gc` option, and the
current collection attempt counter. -/
structure GenEnv where
  nursery_reserved_pages : Nat
  max_nursery : Nat
  user_triggered_collection : Bool
  full_heap_system_gc : Bool
  cur_collection_attempts : Nat
deriving Repr, DecidableEq

/-- `Gen::collection_required`.  `space_is_nursery` abstracts the descriptor
comparison `space.common().descriptor == self.nursery.common().descriptor`;
`base_collection_required` abstracts the result of the call
`common.base.collection_required(plan, space_full, space)` (defined in
`plan/global.rs`, not in the sources given).  Returns the Bool result and
the flag state after the call; note the early return on a full nursery
happens before the `next_gc_full_heap` latch. -/
def Gen.collection_required (env : GenEnv) (s : GenState) (space_full : Bool)
    (space_is_nursery : Bool) (base_collection_required : Bool) : Bool × GenState :=
  if env.nursery_reserved_pages ≥ bytes_to_pages_up env.max_nursery then
    (true, s)
  else
    (base_collection_required,
      if space_full && !space_is_nursery then
        { s with next_gc_full_heap := true }
      else s)

/-- `Gen::request_full_heap_collection`.  `full_nursery_gc` abstracts the
compile-time flag `crate::plan::generational::FULL_NURSERY_GC` (declared in
`plan/generational/mod.rs`, not in the sources given). -/
def Gen.request_full_heap_collection (env : GenEnv) (s : GenState)
    (full_nursery_gc : Bool) (total_pages reserved_pages : Nat) : Bool × GenState :=
  let is_full_heap : Bool :=
    if full_nursery_gc then true
    else if env.user_triggered_collection && env.full_heap_system_gc then true
    else if s.next_gc_full_heap || decide (env.cur_collection_attempts > 1) then true
    else decide (total_pages ≤ reserved_pages)
  (is_full_heap, { s with gc_full_heap := is_full_heap })

/-- `Gen::is_current_gc_nursery`. -/
def Gen.is_current_gc_nursery (s : GenState) : Bool :=
  !s.gc_full_heap

/-- Counterexample to claim C1 as stated: with the nursery already full
(reserved 1 page, `max_nursery = 0` bytes), `space_full = true` and a
non-nursery space, the call returns through the early nursery-full path and
`next_gc_full_heap` is NOT set. -/
theorem collection_required_latch_counterexample :
    ¬ ((Gen.collection_required ⟨1, 0, false, false, 0⟩ ⟨false, false⟩ true false
        false).2.next_gc_full_heap = true) := by decide

/-- Claim C1 (amended): `collection_required` returns true whenever the
nursery's reserved pages reach `bytes_to_pages_up max_nursery` (leaving the
flags untouched); otherwise it returns the base plan's
`collection_required` result, and in that case — and only then — a full
non-nursery space latches `next_gc_full_heap` before the call returns. -/
theorem collection_required_spec (env : GenEnv) (s : GenState)
    (space_full space_is_nursery base : Bool) :
    (env.nursery_reserved_pages ≥ bytes_to_pages_up env.max_nursery →
      (Gen.collection_required env s space_full space_is_nursery base).1 = true ∧
      (Gen.collection_required env s space_full space_is_nursery base).2 = s) ∧
    (¬ env.nursery_reserved_pages ≥ bytes_to_pages_up env.max_nursery →
      (Gen.collection_required env s space_full space_is_nursery base).1 = base ∧
      (space_full = true → space_is_nursery = false →
        (Gen.collection_required env s space_full space_is_nursery
          base).2.next_gc_full_heap = true)) := by
  by_cases hfull : env.nursery_reserved_pages ≥ bytes_to_pages_up env.max_nursery
  · refine ⟨fun _ => ?_, fun hc => absurd hfull hc⟩
    simp [Gen.collection_required, hfull]
  · refine ⟨fun hc => absurd hc hfull, fun _ => ?_⟩
    refine ⟨by simp [Gen.collection_required, hfull], fun hsf hsn => ?_⟩
    simp [Gen.collection_required, hfull, hsf, hsn]

/-- Witness for C1 (amended): an empty nursery with `max_nursery` of one
page, a full non-nursery space: the latch is set. -/
theorem collection_required_spec_witness :
    (Gen.collection_required ⟨0, 4096, false, false, 0⟩ ⟨false, false⟩ true false
      true).2.next_gc_full_heap = true :=
  ((collection_required_spec ⟨0, 4096, false, false, 0⟩ ⟨false, false⟩ true false
    true).2 (by decide)).2 rfl rfl

/-- Claim C2: `request_full_heap_collection` returns full-heap exactly when
the compile-time flag, the user-triggered+option pair, the latched
`next_gc_full_heap`, a collection attempt count above 1, or the page
heuristic `total_pages ≤ reserved_pages` demands it (the if-chain collapses
to this disjunction because every earlier branch returns true); the decision
is stored into `gc_full_heap`, so `is_current_gc_nursery` afterwards is its
negation; and with no other signals `(100, 100)` decides full while
`(100, 99)` decides nursery. -/
theorem request_full_heap_collection_spec (env : GenEnv) (s : GenState)
    (full_nursery_gc : Bool) (total_pages reserved_pages : Nat) :
    ((Gen.request_full_heap_collection env s full_nursery_gc total_pages
        reserved_pages).1 =
      (full_nursery_gc ||
        (env.user_triggered_collection && env.full_heap_system_gc) ||
        s.next_gc_full_heap || decide (env.cur_collection_attempts > 1) ||
        decide (total_pages ≤ reserved_pages))) ∧
    ((Gen.request_full_heap_collection env s full_nursery_gc total_pages
        reserved_pages).2.gc_full_heap =
      (Gen.request_full_heap_collection env s full_nursery_gc total_pages
        reserved_pages).1) ∧
    (Gen.is_current_gc_nursery
        (Gen.request_full_heap_collection env s full_nursery_gc total_pages
          reserved_pages).2 =
      !(Gen.request_full_heap_collection env s full_nursery_gc total_pages
          reserved_pages).1) ∧
    (Gen.request_full_heap_collection ⟨0, 0, false, false, 0⟩ ⟨false, false⟩
        false 100 100).1 = true ∧
    (Gen.request_full_heap_collection ⟨0, 0, false, false, 0⟩ ⟨false, false⟩
        false 100 99).1 = false := by
  obtain ⟨arp, mn, utc, fhs, cca⟩ := env
  obtain ⟨gfh, ngfh⟩ := s
  refine ⟨?_, rfl, rfl, by decide, by decide⟩
  simp only [Gen.request_full_heap_collection]
  cases full_nursery_gc <;> cases utc <;> cases fhs <;> cases ngfh <;>
    by_cases ha : cca > 1 <;> by_cases ht : total_pages ≤ reserved_pages <;>
    simp [ha, ht]

/-- Modelled from the spec: the allocation-semantics selector passed to
`trace_object` (declared in `plan/global.rs`, not in the sources given);
`trace_object_nursery` always passes `Default`. -/
inductive AllocationSemantics where
  | Default : AllocationSemantics
  | Immortal : AllocationSemantics
  | Los : AllocationSemantics
deriving Repr, DecidableEq

/-- Modelled from the spec: the space membership tests and trace entry
points that `Gen::trace_object_nursery` dispatches to.  The nursery
`CopySpace` and the common plan's large-object space live outside the
sources given, so they enter as opaque functions over object references
(modelled as `Nat`). -/
structure TraceEnv where
  nursery_in_space : Nat → Bool
  nursery_trace_object : Nat → AllocationSemantics → Nat
  los_in_space : Nat → Bool
  los_trace_object : Nat → Nat

/-- `Gen::trace_object_nursery`: evacuate nursery objects with `Default`
semantics, trace large objects through the LOS non-moving trace, and return
any other (mature) reference unchanged. -/
def Gen.trace_object_nursery (e : TraceEnv) (object : Nat) : Nat :=
  if e.nursery_in_space object then
    e.nursery_trace_object object AllocationSemantics.Default
  else if e.los_in_space object then
    e.los_trace_object object
  else
    object

/-- Claim C7: `trace_object_nursery` returns the nursery trace with
`Default` semantics on nursery objects, the LOS non-moving trace on large
objects outside the nursery, and the reference unchanged otherwise — a
mature reference is never forwarded by a minor collection. -/
theorem trace_object_nursery_spec (e : TraceEnv) (object : Nat) :
    (e.nursery_in_space object = true →
      Gen.trace_object_nursery e object =
        e.nursery_trace_object object AllocationSemantics.Default) ∧
    (e.nursery_in_space object = false → e.los_in_space object = true →
      Gen.trace_object_nursery e object = e.los_trace_object object) ∧
    (e.nursery_in_space object = false → e.los_in_space object = false →
      Gen.trace_object_nursery e object = object) := by
  refine ⟨fun h => by simp [Gen.trace_object_nursery, h],
    fun h1 h2 => by simp [Gen.trace_object_nursery, h1, h2],
    fun h1 h2 => by simp [Gen.trace_object_nursery, h1, h2]⟩

/-- A concrete trace environment: object 1 is in the nursery, object 2 is in
the large-object space, tracing adds distinct offsets. -/
def traceEnvExample : TraceEnv :=
  ⟨fun o => o == 1, fun o _ => o + 100, fun o => o == 2, fun o => o + 200⟩

/-- Witness for C7: a mature reference (object 3, in neither space) is
returned unchanged. -/
theorem trace_object_nursery_spec_witness :
    Gen.trace_object_nursery traceEnvExample 3 = 3 :=
  (trace_object_nursery_spec traceEnvExample 3).2.2 (by decide) (by decide)
